import Mathlib

/-!
# Verification of the gocbcore operation dispatch and routing engine

A shallow embedding in Lean 4 of the parts of the `gocbcore` package
(Couchbase client core) relevant to its specification: sub-document
request encoding and response decoding (`agentops_subdoc.go`), error
types (`errors` file), agent creation defaults, the memd connect loop,
the HTTP redirect policy and connection-string bootstrap handling
(`agent.go`).

Bytes are modelled as `Nat` values below 256, byte strings as
`List Nat`, Go `time.Duration` as `Int` nanoseconds, and Go `error`
values as an explicit inductive type.
-/

namespace Gocbcore

/-! ## Byte-level codecs (`encoding/binary` big-endian) -/

/-- `binary.BigEndian.PutUint16`: the two big-endian bytes of `n % 2^16`. -/
def beUint16 (n : Nat) : List Nat :=
  [n / 256 % 256, n % 256]

/-- `binary.BigEndian.PutUint32`: the four big-endian bytes of `n % 2^32`. -/
def beUint32 (n : Nat) : List Nat :=
  [n / 16777216 % 256, n / 65536 % 256, n / 256 % 256, n % 256]

/-- `binary.BigEndian.Uint16`: read the first two bytes big-endian. -/
def readUint16 (bytes : List Nat) : Nat :=
  (bytes.take 2).foldl (fun acc b => acc * 256 + b) 0

/-- `binary.BigEndian.Uint32`: read the first four bytes big-endian. -/
def readUint32 (bytes : List Nat) : Nat :=
  (bytes.take 4).foldl (fun acc b => acc * 256 + b) 0

/-- `binary.BigEndian.Uint64`: read the first eight bytes big-endian. -/
def readUint64 (bytes : List Nat) : Nat :=
  (bytes.take 8).foldl (fun acc b => acc * 256 + b) 0

/-! ## Error values

Go `error` values that flow through the code under study, modelled as a
closed inductive type.  A memcached status-derived error is represented
by the status code it was decoded from; `subDocMutateFail` models the
`SubDocMutateError` struct (its `Err` field holds `getMemdError` of the
stored status code, its `OpIndex` field the failing operation index). -/

inductive GoErr where
  /-- `ErrSubDocBadMulti` -/
  | subDocBadMulti
  /-- `ErrProtocol` -/
  | protocol
  /-- `ErrInvalidArgs` -/
  | invalidArgs
  /-- an error obtained from `getMemdError` of a nonzero status code -/
  | memdStatus (code : Nat)
  /-- `SubDocMutateError` with the decoded status code and failing op index -/
  | subDocMutateFail (innerCode : Nat) (opIndex : Nat)
  /-- `ErrAuthError`: an authentication/access failure -/
  | authError
  /-- `ErrAccessError`: an access failure -/
  | accessError
  /-- any other error value, distinguished by a tag -/
  | other (tag : Nat)
  deriving DecidableEq, Repr

/-- Modelled from the spec: `getMemdError` (defined outside the provided
source files) maps a memcached status code to the corresponding error
value; the `Success` status (0) maps to no error, every other status to
its dedicated error ("Status codes form a stable enumeration"). -/
def getMemdError (code : Nat) : Option GoErr :=
  if code = 0 then none else some (.memdStatus code)

/-- Modelled from the spec: `isAccessError` (defined outside the provided
source files) classifies an error as an access/authorization failure
("Authorization: AuthFailure, AccessDenied. Fatal per endpoint"). -/
def isAccessError : GoErr → Bool
  | .authError => true
  | .accessError => true
  | _ => false

/-! ## The memd packet -/

/-- `memdPacket`: one frame of the binary KV protocol. -/
structure MemdPacket where
  magic : Nat
  opcode : Nat
  datatype : Nat
  vbucket : Nat
  cas : Nat
  extras : List Nat
  key : List Nat
  value : List Nat
  deriving DecidableEq, Repr

/-- `ReqMagic`: request magic byte. -/
def reqMagic : Nat := 0x80

/-- Sub-document opcodes (`CmdSubDoc*`).  The numeric values are those of
the memcached protocol; they are declared outside the provided source
files and none of the verified properties depends on them. -/
def cmdSubDocGet : Nat := 0xc5
def cmdSubDocExists : Nat := 0xc6
def cmdSubDocDictAdd : Nat := 0xc7
def cmdSubDocDictSet : Nat := 0xc8
def cmdSubDocDelete : Nat := 0xc9
def cmdSubDocReplace : Nat := 0xca
def cmdSubDocArrayPushLast : Nat := 0xcb
def cmdSubDocArrayPushFirst : Nat := 0xcc
def cmdSubDocArrayInsert : Nat := 0xcd
def cmdSubDocArrayAddUnique : Nat := 0xce
def cmdSubDocCounter : Nat := 0xcf
def cmdSubDocMultiLookup : Nat := 0xd0
def cmdSubDocMultiMutation : Nat := 0xd1

/-! ## Agent creation defaults (`createAgent`) -/

/-- `time.Millisecond` in nanoseconds (Go `time.Duration` units). -/
def millisecond : Int := 1000000

/-- `time.Second` in nanoseconds. -/
def second : Int := 1000 * millisecond

/-- `confHTTPRetryDelay := 10 * time.Second; if config.HTTPRetryDelay > 0
then it is overridden by the configured value`. -/
def confHTTPRetryDelayOf (configured : Int) : Int :=
  if 0 < configured then configured else 10 * second

/-- `confCccpMaxWait := 3 * time.Second`, overridden by a positive
configured `CccpMaxWait`. -/
def confCccpMaxWaitOf (configured : Int) : Int :=
  if 0 < configured then configured else 3 * second

/-- `confCccpPollPeriod := 2500 * time.Millisecond`, overridden by a
positive configured `CccpPollPeriod`. -/
def confCccpPollPeriodOf (configured : Int) : Int :=
  if 0 < configured then configured else 2500 * millisecond

/-! ## SASL auth mechanism defaults (`createAgent`) -/

/-- `AuthMechanism` values appearing in `createAgent`. -/
inductive AuthMechanism where
  | plainAuthMechanism
  | scramSha512AuthMechanism
  | scramSha256AuthMechanism
  | scramSha1AuthMechanism
  | otherAuthMechanism (tag : Nat)
  deriving DecidableEq, Repr

/-- The `authMechanisms` selection of `createAgent`: when the caller
configured none, default to `[PLAIN]` under TLS and otherwise to the
SCRAM mechanisms strongest first; a non-empty configured list is kept. -/
def defaultAuthMechanisms (configured : List AuthMechanism) (useTLS : Bool) :
    List AuthMechanism :=
  if configured.length = 0 then
    if useTLS then
      [.plainAuthMechanism]
    else
      [.scramSha512AuthMechanism, .scramSha256AuthMechanism, .scramSha1AuthMechanism]
  else configured

/-! ## Initial routing configuration and `HasSeenConfig` -/

/-- `routeConfig` as constructed at the end of `createAgent`
(`kvServerList`, `mgmtEpList`, `revID`). -/
structure RouteConfig where
  kvServerList : List String
  mgmtEpList : List String
  revID : Int
  deriving DecidableEq, Repr

/-- The routing configuration installed by `createAgent` before any
cluster config has been received: the configured memd addresses, the
HTTP endpoint list, and revision `-1`. -/
def firstRouteConfig (memdAddrs httpEpList : List String) : RouteConfig :=
  { kvServerList := memdAddrs, mgmtEpList := httpEpList, revID := -1 }

/-- `Agent.HasSeenConfig`: queries `kvMux.ConfigRev()` (modelled as the
given `Except` value) and returns `(false, err)` on error, else
`(rev > -1, nil)`. -/
def hasSeenConfig (configRev : Except GoErr Int) : Bool × Option GoErr :=
  match configRev with
  | .error e => (false, some e)
  | .ok seen => (decide (seen > -1), none)

/-! ## The memd connect loop (`Agent.connect`)

`Agent.connect` iterates over the configured memd endpoints.  For each
endpoint it dials a memd client, requests and parses a CCCP config and
installs the first routing configuration.  The outcome of each step at
one endpoint is modelled by `MemdAttempt`; the loop body is embedded in
`connectLoop`.  Exiting the loop (normally or through the `break` on a
bucket without CCCP support) continues with the HTTP fallback path,
represented here by `ConnectOutcome.exhausted`. -/

/-- The outcome of the per-endpoint steps of `Agent.connect`. -/
inductive MemdAttempt where
  /-- `dialMemdClient` returned the error `e` -/
  | dialErr (e : GoErr)
  /-- `ExecCccpRequest` failed -/
  | cccpErr (e : GoErr)
  /-- `hostFromHostPort` failed -/
  | parseHostErr (e : GoErr)
  /-- `parseConfig` failed -/
  | parseCfgErr (e : GoErr)
  /-- `bk.supportsCccp()` returned false -/
  | noCccpSupport
  /-- the built route config was not valid -/
  | invalidConfig
  /-- every step succeeded -/
  | connected
  deriving DecidableEq, Repr

/-- The result of the memd endpoint loop of `Agent.connect`. -/
inductive ConnectOutcome where
  /-- the loop returned the error `e` to the caller -/
  | fatal (e : GoErr)
  /-- the loop connected successfully -/
  | connected
  /-- the loop was left (fall-through or `break`) without connecting -/
  | exhausted
  deriving DecidableEq, Repr

/-- The memd endpoint loop of `Agent.connect`, evaluated on the list of
per-endpoint outcomes: a dial failure that `isAccessError` classifies as
an access error is returned immediately; every other failure moves on to
the next endpoint, except the missing-CCCP-support case which `break`s
out of the loop. -/
def connectLoop : List MemdAttempt → ConnectOutcome
  | [] => .exhausted
  | a :: rest =>
    match a with
    | .dialErr e => if isAccessError e then .fatal e else connectLoop rest
    | .cccpErr _ => connectLoop rest
    | .parseHostErr _ => connectLoop rest
    | .parseCfgErr _ => connectLoop rest
    | .noCccpSupport => .exhausted
    | .invalidConfig => connectLoop rest
    | .connected => .connected

/-! ## The HTTP redirect policy (`createAgent` / `createHTTPClient`)

Both HTTP clients built by the package install the same `CheckRedirect`
function.  Go's `net/http` invokes it before following each redirect,
passing the upcoming request and the list `via` of requests already
made (oldest first); `via` is never empty at a call site, so the model
returns `none` for an empty `via` (the Go code would panic there). -/

/-- The part of an `http.Request` the redirect policy looks at: its
`Authorization` header (the empty string models an absent header). -/
structure HTTPRequest where
  authorization : String
  deriving DecidableEq, Repr

/-- The `CheckRedirect` function installed on the agent's HTTP clients:
reject chains of 10 or more requests already made, otherwise copy the
first request's non-empty `Authorization` header onto the new request. -/
def checkRedirect (req : HTTPRequest) (via : List HTTPRequest) :
    Option (Except String HTTPRequest) :=
  if 10 ≤ via.length then
    some (.error "stopped after 10 redirects")
  else
    match via with
    | [] => none
    | oldest :: _ =>
      if oldest.authorization ≠ "" then
        some (.ok { req with authorization := oldest.authorization })
      else
        some (.ok req)

/-! ## Connection-string options (`AgentConfig.FromConnStr`)

`gocbconnstr.Parse` (an external collaborator) collects each option's
occurrences, in order, into `spec.Options : map[string][]string`; the
model takes that map as an association list with distinct keys. -/

/-- `spec.Options[name]`: the ordered occurrence list of an option. -/
def optionValues (options : List (String × List String)) (name : String) :
    List String :=
  match options.find? (fun p => p.1 = name) with
  | some p => p.2
  | none => []

/-- The local `fetchOption` closure of `FromConnStr`: `none` when the
option never occurred, otherwise its last occurrence. -/
def fetchOption (options : List (String × List String)) (name : String) :
    Option String :=
  let optValue := optionValues options name
  if optValue.length = 0 then none else optValue.getLast?

/-- The `bootstrap_on` switch of `FromConnStr`, applied to the resolved
memd and HTTP host lists.  Returns the `(MemdAddrs, HttpAddrs)` pair
assigned to the config, or the error `FromConnStr` returns. -/
def applyBootstrapOn (memdHosts httpHosts : List String)
    (options : List (String × List String)) :
    Except String (List String × List String) :=
  let val := (fetchOption options "bootstrap_on").getD ""
  if val = "http" then
    if httpHosts.length = 0 then
      .error "bootstrap_on=http but no HTTP hosts in connection string"
    else
      .ok ([], httpHosts)
  else if val = "cccp" then
    if memdHosts.length = 0 then
      .error "bootstrap_on=cccp but no CCCP/Memcached hosts in connection string"
    else
      .ok (memdHosts, [])
  else if val = "both" then
    .ok (memdHosts, httpHosts)
  else if val = "" then
    .ok (memdHosts, httpHosts)
  else
    .error "bootstrap_on=\x7bhttp,cccp,both\x7d"

/-! ## Single-path sub-document request encoding (`agentops_subdoc.go`)

The request builders below embed the packet-construction part of
`GetIn`, `ExistsIn`, `storeIn` (and its wrappers `SetIn`, `AddIn`,
`ReplaceIn`, `PushFrontIn`, `PushBackIn`, `ArrayInsertIn`,
`AddUniqueIn`), `CounterIn` and `RemoveIn`.  A Go `string` path is
modelled by its byte list, `expiry` (a `uint32`) by a `Nat` reduced
modulo `2^32` where it is written to the wire. -/

/-- The sub-document extras buffer shared by `storeIn`, `CounterIn` and
`RemoveIn`: 7 bytes when `expiry != 0`, else 3; bytes 0-1 the big-endian
path length (`uint16`), byte 2 zero, bytes 3-6 (when present) the
big-endian expiry. -/
def subDocExtras (pathLen expiry : Nat) : List Nat :=
  if expiry ≠ 0 then
    beUint16 pathLen ++ [0] ++ beUint32 expiry
  else
    beUint16 pathLen ++ [0]

/-- The request packet built by `GetIn`: 3-byte extras holding the
big-endian path length and a zero byte, value = the path bytes. -/
def getInRequest (key path : List Nat) : MemdPacket :=
  { magic := reqMagic, opcode := cmdSubDocGet, datatype := 0, vbucket := 0,
    cas := 0, extras := beUint16 path.length ++ [0], key := key, value := path }

/-- The request packet built by `ExistsIn` (same layout as `GetIn` with
the exists opcode). -/
def existsInRequest (key path : List Nat) : MemdPacket :=
  { magic := reqMagic, opcode := cmdSubDocExists, datatype := 0, vbucket := 0,
    cas := 0, extras := beUint16 path.length ++ [0], key := key, value := path }

/-- The request packet built by `storeIn`: value = path bytes followed by
the value bytes, conditional 3/7-byte extras.  (The Go code also
computes `subdocFlags` from `createParents` but never writes it into the
packet; the parameter is kept for the signature.) -/
def storeInRequest (opcode : Nat) (key path value : List Nat)
    (_createParents : Bool) (cas expiry : Nat) : MemdPacket :=
  { magic := reqMagic, opcode := opcode, datatype := 0, vbucket := 0,
    cas := cas, extras := subDocExtras path.length expiry,
    key := key, value := path ++ value }

/-- `SetIn` delegates to `storeIn` with the dict-set opcode. -/
def setInRequest (key path value : List Nat) (createParents : Bool)
    (cas expiry : Nat) : MemdPacket :=
  storeInRequest cmdSubDocDictSet key path value createParents cas expiry

/-- `AddIn` delegates to `storeIn` with the dict-add opcode. -/
def addInRequest (key path value : List Nat) (createParents : Bool)
    (cas expiry : Nat) : MemdPacket :=
  storeInRequest cmdSubDocDictAdd key path value createParents cas expiry

/-- `ReplaceIn` delegates to `storeIn` with the replace opcode and no
parent creation. -/
def replaceInRequest (key path value : List Nat) (cas expiry : Nat) :
    MemdPacket :=
  storeInRequest cmdSubDocReplace key path value false cas expiry

/-- `PushFrontIn` delegates to `storeIn` with the array-push-first opcode. -/
def pushFrontInRequest (key path value : List Nat) (createParents : Bool)
    (cas expiry : Nat) : MemdPacket :=
  storeInRequest cmdSubDocArrayPushFirst key path value createParents cas expiry

/-- `PushBackIn` delegates to `storeIn` with the array-push-last opcode. -/
def pushBackInRequest (key path value : List Nat) (createParents : Bool)
    (cas expiry : Nat) : MemdPacket :=
  storeInRequest cmdSubDocArrayPushLast key path value createParents cas expiry

/-- `ArrayInsertIn` delegates to `storeIn` with the array-insert opcode
and no parent creation. -/
def arrayInsertInRequest (key path value : List Nat) (cas expiry : Nat) :
    MemdPacket :=
  storeInRequest cmdSubDocArrayInsert key path value false cas expiry

/-- `AddUniqueIn` delegates to `storeIn` with the array-add-unique opcode. -/
def addUniqueInRequest (key path value : List Nat) (createParents : Bool)
    (cas expiry : Nat) : MemdPacket :=
  storeInRequest cmdSubDocArrayAddUnique key path value createParents cas expiry

/-- The request packet built by `CounterIn`: value = path bytes followed
by the (delta) value bytes, conditional 3/7-byte extras. -/
def counterInRequest (key path value : List Nat) (cas expiry : Nat) :
    MemdPacket :=
  { magic := reqMagic, opcode := cmdSubDocCounter, datatype := 0, vbucket := 0,
    cas := cas, extras := subDocExtras path.length expiry,
    key := key, value := path ++ value }

/-- The request packet built by `RemoveIn`: value = the path bytes only,
conditional 3/7-byte extras. -/
def removeInRequest (key path : List Nat) (cas expiry : Nat) : MemdPacket :=
  { magic := reqMagic, opcode := cmdSubDocDelete, datatype := 0, vbucket := 0,
    cas := cas, extras := subDocExtras path.length expiry,
    key := key, value := path }

/-! ## Multi sub-document operations (`SubDocLookup` / `SubDocMutate`) -/

/-- `SubDocOpType` constants.  The numeric codes (`SubDocOpType.code`,
used as the first byte of each encoded multi op) equal the corresponding
single-op opcodes. -/
inductive SubDocOpType where
  | subDocOpGet
  | subDocOpExists
  | subDocOpDictAdd
  | subDocOpDictSet
  | subDocOpDelete
  | subDocOpReplace
  | subDocOpArrayPushLast
  | subDocOpArrayPushFirst
  | subDocOpArrayInsert
  | subDocOpArrayAddUnique
  | subDocOpCounter
  deriving DecidableEq, Repr

/-- `uint8(op.Op)`: the wire code of a sub-document op type. -/
def SubDocOpType.code : SubDocOpType → Nat
  | .subDocOpGet => cmdSubDocGet
  | .subDocOpExists => cmdSubDocExists
  | .subDocOpDictAdd => cmdSubDocDictAdd
  | .subDocOpDictSet => cmdSubDocDictSet
  | .subDocOpDelete => cmdSubDocDelete
  | .subDocOpReplace => cmdSubDocReplace
  | .subDocOpArrayPushLast => cmdSubDocArrayPushLast
  | .subDocOpArrayPushFirst => cmdSubDocArrayPushFirst
  | .subDocOpArrayInsert => cmdSubDocArrayInsert
  | .subDocOpArrayAddUnique => cmdSubDocArrayAddUnique
  | .subDocOpCounter => cmdSubDocCounter

/-- `SubDocOp`: one operation of a multi lookup or mutation.  A Go nil
`Value` slice is `none`; a non-nil (possibly empty) slice is `some`. -/
structure SubDocOp where
  op : SubDocOpType
  flags : Nat
  path : List Nat
  value : Option (List Nat)
  deriving DecidableEq, Repr

/-- The validation-and-encoding loop of `SubDocLookup`: an op whose type
is neither get nor exists, or whose value is non-nil, aborts with
`ErrInvalidArgs` (nothing is dispatched); otherwise each op contributes
`code ∥ flags ∥ pathLen(u16 BE) ∥ path` to the request value. -/
def subDocLookupEncodeOps : List SubDocOp → Except GoErr (List Nat)
  | [] => .ok []
  | op :: rest =>
    if op.op ≠ .subDocOpGet ∧ op.op ≠ .subDocOpExists then
      .error .invalidArgs
    else if op.value ≠ none then
      .error .invalidArgs
    else
      match subDocLookupEncodeOps rest with
      | .error e => .error e
      | .ok tail =>
        .ok ([op.op.code % 256, op.flags % 256] ++ beUint16 op.path.length
             ++ op.path ++ tail)

/-- The request built by `SubDocLookup` (multi-lookup opcode, no extras,
CAS 0), or the `(nil, ErrInvalidArgs)` return when validation fails. -/
def subDocLookupRequest (key : List Nat) (ops : List SubDocOp) :
    Except GoErr MemdPacket :=
  match subDocLookupEncodeOps ops with
  | .error e => .error e
  | .ok valueBuf =>
    .ok { magic := reqMagic, opcode := cmdSubDocMultiLookup, datatype := 0,
          vbucket := 0, cas := 0, extras := [], key := key, value := valueBuf }

/-- The validation-and-encoding loop of `SubDocMutate`: an op whose type
is outside the nine permitted mutation types aborts with
`ErrInvalidArgs`; otherwise each op contributes
`code ∥ flags ∥ pathLen(u16 BE) ∥ valueLen(u32 BE) ∥ path ∥ value`. -/
def subDocMutateEncodeOps : List SubDocOp → Except GoErr (List Nat)
  | [] => .ok []
  | op :: rest =>
    if op.op ≠ .subDocOpDictAdd ∧ op.op ≠ .subDocOpDictSet ∧
        op.op ≠ .subDocOpDelete ∧ op.op ≠ .subDocOpReplace ∧
        op.op ≠ .subDocOpArrayPushLast ∧ op.op ≠ .subDocOpArrayPushFirst ∧
        op.op ≠ .subDocOpArrayInsert ∧ op.op ≠ .subDocOpArrayAddUnique ∧
        op.op ≠ .subDocOpCounter then
      .error .invalidArgs
    else
      match subDocMutateEncodeOps rest with
      | .error e => .error e
      | .ok tail =>
        let value := op.value.getD []
        .ok ([op.op.code % 256, op.flags % 256] ++ beUint16 op.path.length
             ++ beUint32 value.length ++ op.path ++ value ++ tail)

/-- The request built by `SubDocMutate` (multi-mutation opcode, 4-byte
expiry extras only when `expiry != 0`), or the `(nil, ErrInvalidArgs)`
return when validation fails. -/
def subDocMutateRequest (key : List Nat) (ops : List SubDocOp)
    (cas expiry : Nat) : Except GoErr MemdPacket :=
  match subDocMutateEncodeOps ops with
  | .error e => .error e
  | .ok valueBuf =>
    .ok { magic := reqMagic, opcode := cmdSubDocMultiMutation, datatype := 0,
          vbucket := 0, cas := cas,
          extras := if expiry ≠ 0 then beUint32 expiry else [],
          key := key, value := valueBuf }

/-! ## Multi sub-document response handling -/

/-- `SubDocResult`: per-op decoded status (as an error or `none` for
success) and value. -/
structure SubDocResult where
  err : Option GoErr
  value : List Nat
  deriving DecidableEq, Repr

/-- `MutationToken` as decoded from a 16-byte mutation extras block. -/
structure MutationToken where
  vbId : Nat
  vbUuid : Nat
  seqNo : Nat
  deriving DecidableEq, Repr

/-- The zero `MutationToken{}`. -/
def emptyMutationToken : MutationToken := { vbId := 0, vbUuid := 0, seqNo := 0 }

/-- The mutation-token extraction shared by the mutation handlers: only
a response with at least 16 extras bytes fills the token. -/
def mutationTokenOf (reqVbucket : Nat) (extras : List Nat) : MutationToken :=
  if 16 ≤ extras.length then
    { vbId := reqVbucket, vbUuid := readUint64 extras,
      seqNo := readUint64 (extras.drop 8) }
  else emptyMutationToken

/-- The per-result decode loop of the `SubDocLookup` handler: for each of
the `numOps` results, check the 6-byte header fits, read the status
(u16 BE) and the value length (u32 BE), check the value fits, record
`getMemdError status` and the value slice and move past it.  `none`
models the `ErrProtocol` exits; leftover trailing bytes are ignored as
in the source. -/
def decodeLookupResults : Nat → List Nat → Option (List SubDocResult)
  | 0, _ => some []
  | numOps + 1, bytes =>
    if bytes.length < 6 then
      none
    else
      let resError := readUint16 bytes
      let resValueLen := readUint32 (bytes.drop 2)
      let rest := bytes.drop 6
      if rest.length < resValueLen then
        none
      else
        match decodeLookupResults numOps (rest.drop resValueLen) with
        | none => none
        | some results =>
          some ({ err := getMemdError resError, value := rest.take resValueLen }
                :: results)

/-- The callback invocation of the `SubDocLookup` handler:
`cb(nil, 0, err)` is `.failure`, `cb(results, cas, err)` is `.results`. -/
inductive LookupCallback where
  | failure (e : GoErr)
  | results (results : List SubDocResult) (cas : Nat) (e : Option GoErr)
  deriving DecidableEq, Repr

/-- The response handler installed by `SubDocLookup`: an error other than
`ErrSubDocBadMulti` is passed through verbatim with no results; otherwise
(no error, or exactly `ErrSubDocBadMulti`) the per-op results are decoded
from the response value and handed to the callback together with the
original error, with `ErrProtocol` replacing a malformed body. -/
def subDocLookupHandler (numOps : Nat) (resp : MemdPacket)
    (err : Option GoErr) : LookupCallback :=
  if err ≠ none ∧ err ≠ some .subDocBadMulti then
    .failure (err.getD .protocol)
  else
    match decodeLookupResults numOps resp.value with
    | none => .failure .protocol
    | some results => .results results resp.cas err

/-- The callback invocation of the `SubDocMutate` handler:
`cb(nil, 0, MutationToken{}, err)` is `.failure`,
`cb(results, cas, token, nil)` is `.results`. -/
inductive MutateCallback where
  | failure (e : GoErr)
  | results (results : List SubDocResult) (cas : Nat) (token : MutationToken)
  deriving DecidableEq, Repr

/-- The success-path decode loop of the `SubDocMutate` handler: while
bytes remain, read an op index byte and a status (u16 BE), store
`getMemdError status` at that index, and on a success status also read a
value length (u32 BE) and the value.  The source indexes the response
slice and the results array without bounds checks; `none` models the
resulting runtime panic on malformed input.  `fuel` bounds the loop (each
iteration consumes at least 3 bytes, so `bytes.length` suffices). -/
def decodeMutateResults (fuel : Nat) (results : List SubDocResult)
    (bytes : List Nat) : Option (List SubDocResult) :=
  match fuel with
  | 0 => if bytes.length = 0 then some results else none
  | fuel + 1 =>
    match bytes with
    | [] => some results
    | opIndex :: rest1 =>
      if rest1.length < 2 then
        none
      else
        let opStatus := readUint16 rest1
        match results.get? opIndex with
        | none => none
        | some r =>
          let results := results.set opIndex { r with err := getMemdError opStatus }
          let rest := rest1.drop 2
          if opStatus = 0 then
            if rest.length < 4 then
              none
            else
              let valLength := readUint32 rest
              let rest2 := rest.drop 4
              if rest2.length < valLength then
                none
              else
                let results := results.set opIndex
                  { err := getMemdError opStatus, value := rest2.take valLength }
                decodeMutateResults fuel results (rest2.drop valLength)
          else
            decodeMutateResults fuel results rest

/-- The response handler installed by `SubDocMutate`.  An error other
than `ErrSubDocBadMulti` is passed through verbatim.  On exactly
`ErrSubDocBadMulti`: a response body that is not exactly 3 bytes yields
`ErrProtocol`; otherwise byte 0 is the failing op index and bytes 1-2
the big-endian status, wrapped in a `SubDocMutateError` — no results
are delivered.  With no error the full results are decoded (a `none`
result models the source's unchecked indexing panicking). -/
def subDocMutateHandler (numOps : Nat) (resp : MemdPacket)
    (reqVbucket : Nat) (err : Option GoErr) : Option MutateCallback :=
  if err ≠ none ∧ err ≠ some .subDocBadMulti then
    some (.failure (err.getD .protocol))
  else if err = some .subDocBadMulti then
    if resp.value.length ≠ 3 then
      some (.failure .protocol)
    else
      let opIndex := resp.value.headD 0
      let resError := readUint16 (resp.value.drop 1)
      some (.failure (.subDocMutateFail resError opIndex))
  else
    match decodeMutateResults resp.value.length
        (List.replicate numOps { err := none, value := [] }) resp.value with
    | none => none
    | some results =>
      some (.results results resp.cas (mutationTokenOf reqVbucket resp.extras))

/-! ## Error types surfaced to the caller (`errors` source file)

One Lean structure per Go struct, with the same fields in the same
order, and for each struct the list of its JSON field tags exactly as
written in the source (`json:"-"` fields are not serialized and do not
appear). -/

/-- `RetryReason`: modelled by its description string. -/
structure RetryReason where
  description : String
  deriving DecidableEq, Repr

/-- `KeyValueError`. -/
structure KeyValueError where
  innerError : GoErr
  statusCode : Nat
  bucketName : String
  scopeName : String
  collectionName : String
  collectionID : Nat
  errorName : String
  errorDescription : String
  opaq : Nat
  context : String
  ref : String
  retryReasons : List RetryReason
  retryAttempts : Nat
  deriving DecidableEq, Repr

/-- The JSON field tags of `KeyValueError` (`InnerError` carries
`json:"-"`).  Note: no `endpoint` field exists on this struct. -/
def keyValueErrorJsonFields : List String :=
  ["status_code", "bucket", "scope", "collection", "collection_id",
   "error_name", "error_description", "opaque", "context", "ref",
   "retry_reasons", "retry_attempts"]

/-- `ViewQueryErrorDesc`. -/
structure ViewQueryErrorDesc where
  sourceNode : String
  message : String
  deriving DecidableEq, Repr

/-- `ViewError`. -/
structure ViewError where
  innerError : GoErr
  designDocumentName : String
  viewName : String
  errors : List ViewQueryErrorDesc
  endpoint : String
  retryReasons : List RetryReason
  retryAttempts : Nat
  deriving DecidableEq, Repr

/-- The JSON field tags of `ViewError`. -/
def viewErrorJsonFields : List String :=
  ["design_document_name", "view_name", "errors", "endpoint",
   "retry_reasons", "retry_attempts"]

/-- `N1QLErrorDesc`. -/
structure N1QLErrorDesc where
  code : Nat
  message : String
  deriving DecidableEq, Repr

/-- `N1QLError`. -/
structure N1QLError where
  innerError : GoErr
  statement : String
  clientContextID : String
  errors : List N1QLErrorDesc
  endpoint : String
  retryReasons : List RetryReason
  retryAttempts : Nat
  deriving DecidableEq, Repr

/-- The JSON field tags of `N1QLError`. -/
def n1qlErrorJsonFields : List String :=
  ["statement", "client_context_id", "errors", "endpoint",
   "retry_reasons", "retry_attempts"]

/-- `AnalyticsErrorDesc`. -/
structure AnalyticsErrorDesc where
  code : Nat
  message : String
  deriving DecidableEq, Repr

/-- `AnalyticsError`. -/
structure AnalyticsError where
  innerError : GoErr
  statement : String
  clientContextID : String
  errors : List AnalyticsErrorDesc
  endpoint : String
  retryReasons : List RetryReason
  retryAttempts : Nat
  deriving DecidableEq, Repr

/-- The JSON field tags of `AnalyticsError`. -/
def analyticsErrorJsonFields : List String :=
  ["statement", "client_context_id", "errors", "endpoint",
   "retry_reasons", "retry_attempts"]

/-- `SearchError` (its `Query` field has interface type, modelled as a
string). -/
structure SearchError where
  innerError : GoErr
  indexName : String
  query : String
  errorText : String
  httpResponseCode : Nat
  endpoint : String
  retryReasons : List RetryReason
  retryAttempts : Nat
  deriving DecidableEq, Repr

/-- The JSON field tags of `SearchError`. -/
def searchErrorJsonFields : List String :=
  ["index_name", "query", "error_text", "status_code", "endpoint",
   "retry_reasons", "retry_attempts"]

/-- `HTTPError`. -/
structure HTTPError where
  innerError : GoErr
  uniqueID : String
  endpoint : String
  retryReasons : List RetryReason
  retryAttempts : Nat
  deriving DecidableEq, Repr

/-- The JSON field tags of `HTTPError`. -/
def httpErrorJsonFields : List String :=
  ["unique_id", "endpoint", "retry_reasons", "retry_attempts"]

/-! ## Theorems -/

/-- C3: the routing configuration installed at agent creation, before any
cluster config has been received, carries revision −1, and
`HasSeenConfig` (on a successfully read revision) returns true if and
only if the current config revision is strictly greater than −1. -/
theorem C3_initial_revision_and_hasSeenConfig (memdAddrs httpEpList : List String)
    (rev : Int) :
    (firstRouteConfig memdAddrs httpEpList).revID = -1 ∧
    ((hasSeenConfig (.ok rev)).1 = true ↔ -1 < rev) ∧
    (hasSeenConfig (.ok rev)).2 = none := by
  refine ⟨rfl, ?_, rfl⟩
  simp [hasSeenConfig]

/-- C4: in the `Agent.connect` loop over memd endpoints, a dial attempt
failing with an access/authorization error aborts the whole connect and
propagates that error, while a dial attempt failing with any other error
makes the loop continue with the remaining endpoints. -/
theorem C4_connect_dial_classification (e : GoErr) (rest : List MemdAttempt) :
    (isAccessError e = true → connectLoop (.dialErr e :: rest) = .fatal e) ∧
    (isAccessError e = false → connectLoop (.dialErr e :: rest) = connectLoop rest) := by
  constructor <;> intro h <;> simp [connectLoop, h]

/-- C4 witness: an auth error on the first endpoint is fatal; a
transport error on the first endpoint moves on to the second. -/
theorem C4_connect_dial_classification_witness :
    connectLoop [.dialErr .authError, .connected] = .fatal .authError ∧
    connectLoop [.dialErr (.other 0), .connected] = connectLoop [.connected] :=
  ⟨(C4_connect_dial_classification .authError [.connected]).1 rfl,
   (C4_connect_dial_classification (.other 0) [.connected]).2 rfl⟩

/-- C5: with no configured SASL auth mechanisms, the agent defaults to
exactly `[PLAIN]` under TLS and otherwise to the SCRAM mechanisms in
strongest-first order `[SCRAM-SHA512, SCRAM-SHA256, SCRAM-SHA1]`. -/
theorem C5_default_auth_mechanisms :
    defaultAuthMechanisms [] true = [.plainAuthMechanism] ∧
    defaultAuthMechanisms [] false =
      [.scramSha512AuthMechanism, .scramSha256AuthMechanism,
       .scramSha1AuthMechanism] :=
  ⟨rfl, rfl⟩

/-- C6: the redirect policy of the agent's HTTP clients rejects a chain
of 10 or more already-made requests with an error, and on every followed
redirect re-attaches the Authorization header of the first request of
the chain to the new request when that header is non-empty (and leaves
the new request unchanged when it is empty). -/
theorem C6_redirect_policy (req oldest : HTTPRequest)
    (via rest : List HTTPRequest) :
    (10 ≤ via.length →
      checkRedirect req via = some (.error "stopped after 10 redirects")) ∧
    (via = oldest :: rest → via.length < 10 → oldest.authorization ≠ "" →
      checkRedirect req via
        = some (.ok { req with authorization := oldest.authorization })) ∧
    (via = oldest :: rest → via.length < 10 → oldest.authorization = "" →
      checkRedirect req via = some (.ok req)) := by
  refine ⟨?_, ?_, ?_⟩
  · intro h
    simp [checkRedirect, h]
  · rintro rfl h hne
    simp only [List.length_cons] at h
    simp [checkRedirect, hne]
    omega
  · rintro rfl h he
    simp only [List.length_cons] at h
    simp [checkRedirect, he]
    omega

/-- C6 witness: a chain of 10 requests is rejected; a 1-request chain
with a non-empty Authorization header re-attaches it; an empty header
leaves the request unchanged. -/
theorem C6_redirect_policy_witness :
    checkRedirect { authorization := "" } (List.replicate 10 { authorization := "" })
      = some (.error "stopped after 10 redirects") ∧
    checkRedirect { authorization := "" } [{ authorization := "Basic Zm9v" }]
      = some (.ok { authorization := "Basic Zm9v" }) ∧
    checkRedirect { authorization := "Bearer x" } [{ authorization := "" }]
      = some (.ok { authorization := "Bearer x" }) :=
  ⟨(C6_redirect_policy { authorization := "" } { authorization := "" }
      (List.replicate 10 { authorization := "" }) []).1 (by simp),
   (C6_redirect_policy { authorization := "" } { authorization := "Basic Zm9v" }
      [{ authorization := "Basic Zm9v" }] []).2.1 rfl (by simp) (by simp),
   (C6_redirect_policy { authorization := "Bearer x" } { authorization := "" }
      [{ authorization := "" }] []).2.2 rfl (by simp) rfl⟩

/-- C7: when the corresponding option is unset (non-positive) the agent
uses a CCCP poll period of 2500 ms, a CCCP max wait of 3 s and an HTTP
poller retry delay of 10 s; a positive configured value overrides the
corresponding default. -/
theorem C7_poller_defaults (v : Int) :
    ((v ≤ 0 → confCccpPollPeriodOf v = 2500 * millisecond) ∧
     (0 < v → confCccpPollPeriodOf v = v)) ∧
    ((v ≤ 0 → confCccpMaxWaitOf v = 3 * second) ∧
     (0 < v → confCccpMaxWaitOf v = v)) ∧
    ((v ≤ 0 → confHTTPRetryDelayOf v = 10 * second) ∧
     (0 < v → confHTTPRetryDelayOf v = v)) := by
  refine ⟨⟨?_, ?_⟩, ⟨?_, ?_⟩, ⟨?_, ?_⟩⟩ <;> intro h
  · rw [confCccpPollPeriodOf, if_neg (by omega)]
  · rw [confCccpPollPeriodOf, if_pos h]
  · rw [confCccpMaxWaitOf, if_neg (by omega)]
  · rw [confCccpMaxWaitOf, if_pos h]
  · rw [confHTTPRetryDelayOf, if_neg (by omega)]
  · rw [confHTTPRetryDelayOf, if_pos h]

/-- C7 witness: the three defaults at an unset (zero) option, and one
positive override. -/
theorem C7_poller_defaults_witness :
    confCccpPollPeriodOf 0 = 2500 * millisecond ∧
    confCccpMaxWaitOf 0 = 3 * second ∧
    confHTTPRetryDelayOf 0 = 10 * second ∧
    confHTTPRetryDelayOf 7 = 7 :=
  ⟨(C7_poller_defaults 0).1.1 (by norm_num),
   (C7_poller_defaults 0).2.1.1 (by norm_num),
   (C7_poller_defaults 0).2.2.1 (by norm_num),
   (C7_poller_defaults 7).2.2.2 (by norm_num)⟩

/-- C2 counterexample: `KeyValueError` carries no endpoint — its JSON
serialization (struct tags) has no `endpoint` field, refuting the claim
that every surfaced error type carries the endpoint last tried. -/
theorem C2_keyValueError_no_endpoint : "endpoint" ∉ keyValueErrorJsonFields := by
  decide

/-- C2 (amended): `ViewError`, `N1QLError`, `AnalyticsError`,
`SearchError` and `HTTPError` each carry the endpoint last tried, the
accumulated retry reasons and the retry-attempt count; `KeyValueError`
carries the retry reasons and retry attempts but no endpoint field. -/
theorem C2_error_context_fields :
    ("retry_reasons" ∈ keyValueErrorJsonFields ∧
     "retry_attempts" ∈ keyValueErrorJsonFields) ∧
    ("endpoint" ∈ viewErrorJsonFields ∧
     "retry_reasons" ∈ viewErrorJsonFields ∧
     "retry_attempts" ∈ viewErrorJsonFields) ∧
    ("endpoint" ∈ n1qlErrorJsonFields ∧
     "retry_reasons" ∈ n1qlErrorJsonFields ∧
     "retry_attempts" ∈ n1qlErrorJsonFields) ∧
    ("endpoint" ∈ analyticsErrorJsonFields ∧
     "retry_reasons" ∈ analyticsErrorJsonFields ∧
     "retry_attempts" ∈ analyticsErrorJsonFields) ∧
    ("endpoint" ∈ searchErrorJsonFields ∧
     "retry_reasons" ∈ searchErrorJsonFields ∧
     "retry_attempts" ∈ searchErrorJsonFields) ∧
    ("endpoint" ∈ httpErrorJsonFields ∧
     "retry_reasons" ∈ httpErrorJsonFields ∧
     "retry_attempts" ∈ httpErrorJsonFields) := by
  decide

/-- C8: in `FromConnStr`, the last occurrence of a repeated option wins;
a `bootstrap_on` value outside `{http, cccp, both, empty}` fails with an
explicit error, as does `bootstrap_on=http` with no HTTP hosts and
`bootstrap_on=cccp` with no memd hosts. -/
theorem C8_fromConnStr_bootstrap (options : List (String × List String))
    (memdHosts httpHosts : List String) (name v val : String)
    (vs : List String) :
    (optionValues options name = vs ++ [v] →
      fetchOption options name = some v) ∧
    (fetchOption options "bootstrap_on" = some val →
      val ≠ "http" → val ≠ "cccp" → val ≠ "both" → val ≠ "" →
      applyBootstrapOn memdHosts httpHosts options
        = .error "bootstrap_on=\x7bhttp,cccp,both\x7d") ∧
    (fetchOption options "bootstrap_on" = some "http" → httpHosts = [] →
      applyBootstrapOn memdHosts httpHosts options
        = .error "bootstrap_on=http but no HTTP hosts in connection string") ∧
    (fetchOption options "bootstrap_on" = some "cccp" → memdHosts = [] →
      applyBootstrapOn memdHosts httpHosts options
        = .error "bootstrap_on=cccp but no CCCP/Memcached hosts in connection string") := by
  refine ⟨?_, ?_, ?_, ?_⟩
  · intro h
    rw [fetchOption]
    rw [h]
    simp
  · intro hf h1 h2 h3 h4
    rw [applyBootstrapOn, hf]
    simp only [Option.getD_some]
    rw [if_neg h1, if_neg h2, if_neg h3, if_neg h4]
  · intro hf hh
    rw [applyBootstrapOn, hf]
    simp [hh]
  · intro hf hm
    rw [applyBootstrapOn, hf]
    simp [hm]

/-- C8 witness: with `bootstrap_on` given twice the later value is
fetched; an unknown value, `http` with no HTTP hosts and `cccp` with no
memd hosts each produce their explicit error. -/
theorem C8_fromConnStr_bootstrap_witness :
    fetchOption [("bootstrap_on", ["cccp", "bogus"])] "bootstrap_on" = some "bogus" ∧
    applyBootstrapOn ["a:11210"] ["a:8091"] [("bootstrap_on", ["both", "bogus"])]
      = .error "bootstrap_on=\x7bhttp,cccp,both\x7d" ∧
    applyBootstrapOn ["a:11210"] [] [("bootstrap_on", ["http"])]
      = .error "bootstrap_on=http but no HTTP hosts in connection string" ∧
    applyBootstrapOn [] ["a:8091"] [("bootstrap_on", ["cccp"])]
      = .error "bootstrap_on=cccp but no CCCP/Memcached hosts in connection string" :=
  ⟨(C8_fromConnStr_bootstrap [("bootstrap_on", ["cccp", "bogus"])] [] []
      "bootstrap_on" "bogus" "" ["cccp"]).1 rfl,
   (C8_fromConnStr_bootstrap [("bootstrap_on", ["both", "bogus"])] ["a:11210"]
      ["a:8091"] "" "" "bogus" []).2.1 rfl (by decide) (by decide) (by decide)
      (by decide),
   (C8_fromConnStr_bootstrap [("bootstrap_on", ["http"])] ["a:11210"] []
      "" "" "" []).2.2.1 rfl rfl,
   (C8_fromConnStr_bootstrap [("bootstrap_on", ["cccp"])] [] ["a:8091"]
      "" "" "" []).2.2.2 rfl rfl⟩

/-- Decoding the two big-endian bytes of a value below `2^16` recovers
the value, regardless of trailing bytes. -/
theorem readUint16_beUint16 (n : Nat) (h : n < 65536) (suffix : List Nat) :
    readUint16 (beUint16 n ++ suffix) = n := by
  simp [readUint16, beUint16]
  omega

/-- Decoding the four big-endian bytes of a value below `2^32` recovers
the value, regardless of trailing bytes. -/
theorem readUint32_beUint32 (n : Nat) (h : n < 4294967296) (suffix : List Nat) :
    readUint32 (beUint32 n ++ suffix) = n := by
  simp [readUint32, beUint32]
  omega

/-- Shape and decoded content of the shared sub-document extras buffer:
3 bytes without expiry, 7 with; bytes 0-1 decode to the path length,
byte 2 is zero, bytes 3-6 decode to the expiry. -/
theorem subDocExtras_decode (pathLen expiry : Nat) (hp : pathLen < 65536)
    (he : expiry < 4294967296) :
    readUint16 (subDocExtras pathLen expiry) = pathLen ∧
    (subDocExtras pathLen expiry)[2]? = some 0 ∧
    (expiry = 0 → (subDocExtras pathLen expiry).length = 3) ∧
    (expiry ≠ 0 → (subDocExtras pathLen expiry).length = 7 ∧
      readUint32 ((subDocExtras pathLen expiry).drop 3) = expiry) := by
  by_cases hz : expiry = 0
  · subst hz
    refine ⟨?_, ?_, fun _ => ?_, fun hne => absurd rfl hne⟩
    · simp only [subDocExtras, ne_eq, not_true_eq_false, if_false, ite_false]
      exact readUint16_beUint16 pathLen hp [0]
    · simp [subDocExtras, beUint16]
    · simp [subDocExtras, beUint16]
  · refine ⟨?_, ?_, fun hz2 => absurd hz2 hz, fun _ => ⟨?_, ?_⟩⟩
    · simp only [subDocExtras, ne_eq, hz, not_false_eq_true, if_true, ite_true]
      rw [List.append_assoc]
      exact readUint16_beUint16 pathLen hp ([0] ++ beUint32 expiry)
    · simp [subDocExtras, hz, beUint16, beUint32]
    · simp [subDocExtras, hz, beUint16, beUint32]
    · simp only [subDocExtras, ne_eq, hz, not_false_eq_true, if_true, ite_true,
        beUint16]
      have : ([pathLen / 256 % 256, pathLen % 256] ++ [0] ++ beUint32 expiry).drop 3
          = beUint32 expiry ++ [] := by
        simp [beUint32]
      rw [this]
      exact readUint32_beUint32 expiry he []

/-- C9: every single-path sub-document request (`GetIn`, `ExistsIn`, the
`storeIn` family, `CounterIn`, `RemoveIn`) carries an Extras field of
exactly 3 bytes when the expiry is 0 and exactly 7 bytes otherwise, with
bytes 0-1 the big-endian path length, byte 2 zero and (when present)
bytes 3-6 the big-endian expiry; for the `storeIn` family and `CounterIn`
the request Value is the path bytes followed by the value bytes. -/
theorem C9_single_path_encoding (key path value : List Nat) (cas expiry : Nat)
    (hp : path.length < 65536) (he : expiry < 4294967296) :
    ((getInRequest key path).extras.length = 3 ∧
     readUint16 (getInRequest key path).extras = path.length ∧
     (getInRequest key path).extras[2]? = some 0 ∧
     (getInRequest key path).value = path) ∧
    ((existsInRequest key path).extras.length = 3 ∧
     readUint16 (existsInRequest key path).extras = path.length ∧
     (existsInRequest key path).extras[2]? = some 0 ∧
     (existsInRequest key path).value = path) ∧
    (∀ opcode createParents,
      (expiry = 0 →
        (storeInRequest opcode key path value createParents cas expiry).extras.length = 3) ∧
      (expiry ≠ 0 →
        (storeInRequest opcode key path value createParents cas expiry).extras.length = 7 ∧
        readUint32 ((storeInRequest opcode key path value createParents cas expiry).extras.drop 3)
          = expiry) ∧
      readUint16 (storeInRequest opcode key path value createParents cas expiry).extras
        = path.length ∧
      (storeInRequest opcode key path value createParents cas expiry).extras[2]? = some 0 ∧
      (storeInRequest opcode key path value createParents cas expiry).value = path ++ value) ∧
    ((expiry = 0 → (counterInRequest key path value cas expiry).extras.length = 3) ∧
     (expiry ≠ 0 →
       (counterInRequest key path value cas expiry).extras.length = 7 ∧
       readUint32 ((counterInRequest key path value cas expiry).extras.drop 3) = expiry) ∧
     readUint16 (counterInRequest key path value cas expiry).extras = path.length ∧
     (counterInRequest key path value cas expiry).extras[2]? = some 0 ∧
     (counterInRequest key path value cas expiry).value = path ++ value) ∧
    ((expiry = 0 → (removeInRequest key path cas expiry).extras.length = 3) ∧
     (expiry ≠ 0 →
       (removeInRequest key path cas expiry).extras.length = 7 ∧
       readUint32 ((removeInRequest key path cas expiry).extras.drop 3) = expiry) ∧
     readUint16 (removeInRequest key path cas expiry).extras = path.length ∧
     (removeInRequest key path cas expiry).extras[2]? = some 0 ∧
     (removeInRequest key path cas expiry).value = path) := by
  have H := subDocExtras_decode path.length expiry hp he
  have H0 := subDocExtras_decode path.length 0 hp (by norm_num)
  have hex : subDocExtras path.length 0 = beUint16 path.length ++ [0] := by
    simp [subDocExtras]
  rw [hex] at H0
  refine ⟨⟨H0.2.2.1 rfl, H0.1, H0.2.1, rfl⟩,
          ⟨H0.2.2.1 rfl, H0.1, H0.2.1, rfl⟩,
          fun opcode createParents => ⟨?_, ?_, H.1, H.2.1, rfl⟩,
          ⟨?_, ?_, H.1, H.2.1, rfl⟩,
          ⟨?_, ?_, H.1, H.2.1, rfl⟩⟩
  · exact H.2.2.1
  · exact H.2.2.2
  · exact H.2.2.1
  · exact H.2.2.2
  · exact H.2.2.1
  · exact H.2.2.2

/-- C9 witness: the encodings at a concrete key, path, value, CAS and
both a zero and a nonzero expiry. -/
theorem C9_single_path_encoding_witness :
    (getInRequest [107] [112]).extras.length = 3 ∧
    (storeInRequest cmdSubDocDictSet [107] [112] [49] false 2 5).extras.length = 7 ∧
    readUint32 ((storeInRequest cmdSubDocDictSet [107] [112] [49] false 2 5).extras.drop 3) = 5 ∧
    (counterInRequest [107] [112] [49] 0 0).value = [112] ++ [49] ∧
    (removeInRequest [107] [112] 0 0).extras.length = 3 := by
  have h0 := C9_single_path_encoding [107] [112] [49] 2 0 (by norm_num) (by norm_num)
  have h5 := C9_single_path_encoding [107] [112] [49] 2 5 (by norm_num) (by norm_num)
  have hc := C9_single_path_encoding [107] [112] [49] 0 0 (by norm_num) (by norm_num)
  exact ⟨h0.1.1,
         ((h5.2.2.1 cmdSubDocDictSet false).2.1 (by norm_num)).1,
         ((h5.2.2.1 cmdSubDocDictSet false).2.1 (by norm_num)).2,
         hc.2.2.2.1.2.2.2.2,
         hc.2.2.2.2.1 rfl⟩

/-- A lookup op list containing an op that is neither a get nor an
exists, or that carries a non-nil value, fails validation with
`ErrInvalidArgs`. -/
theorem subDocLookupEncodeOps_error_of_bad (ops : List SubDocOp)
    (h : ∃ op ∈ ops, (op.op ≠ .subDocOpGet ∧ op.op ≠ .subDocOpExists) ∨
      op.value ≠ none) :
    subDocLookupEncodeOps ops = .error .invalidArgs := by
  induction ops with
  | nil => simp at h
  | cons op rest ih =>
    obtain ⟨o, ho, hP⟩ := h
    rcases List.mem_cons.mp ho with rfl | hmem
    · by_cases hA : o.op ≠ .subDocOpGet ∧ o.op ≠ .subDocOpExists
      · simp only [subDocLookupEncodeOps, if_pos hA]
      · rcases hP with hP | hP
        · exact absurd hP hA
        · simp only [subDocLookupEncodeOps, if_neg hA, if_pos hP]
    · have hrec := ih ⟨o, hmem, hP⟩
      by_cases hA : op.op ≠ .subDocOpGet ∧ op.op ≠ .subDocOpExists
      · simp only [subDocLookupEncodeOps, if_pos hA]
      · by_cases hB : op.value ≠ none
        · simp only [subDocLookupEncodeOps, if_neg hA, if_pos hB]
        · simp only [subDocLookupEncodeOps, if_neg hA, if_neg hB, hrec]

/-- A lookup op list of only get/exists ops with nil values passes
validation and is encoded. -/
theorem subDocLookupEncodeOps_ok_of_good (ops : List SubDocOp)
    (h : ∀ op ∈ ops, (op.op = .subDocOpGet ∨ op.op = .subDocOpExists) ∧
      op.value = none) :
    ∃ valueBuf, subDocLookupEncodeOps ops = .ok valueBuf := by
  induction ops with
  | nil => exact ⟨[], rfl⟩
  | cons op rest ih =>
    obtain ⟨hop, hval⟩ := h op (List.mem_cons_self op rest)
    obtain ⟨tail, htail⟩ := ih fun o ho => h o (List.mem_cons_of_mem op ho)
    have hA : ¬(op.op ≠ .subDocOpGet ∧ op.op ≠ .subDocOpExists) :=
      fun hc => hop.elim hc.1 hc.2
    have hB : ¬op.value ≠ none := fun hc => hc hval
    refine ⟨[op.op.code % 256, op.flags % 256] ++ beUint16 op.path.length
      ++ op.path ++ tail, ?_⟩
    simp only [subDocLookupEncodeOps, if_neg hA, if_neg hB, htail]

/-- A mutation op list containing an op outside the nine permitted
mutation types fails validation with `ErrInvalidArgs`. -/
theorem subDocMutateEncodeOps_error_of_bad (ops : List SubDocOp)
    (h : ∃ op ∈ ops, op.op ≠ .subDocOpDictAdd ∧ op.op ≠ .subDocOpDictSet ∧
      op.op ≠ .subDocOpDelete ∧ op.op ≠ .subDocOpReplace ∧
      op.op ≠ .subDocOpArrayPushLast ∧ op.op ≠ .subDocOpArrayPushFirst ∧
      op.op ≠ .subDocOpArrayInsert ∧ op.op ≠ .subDocOpArrayAddUnique ∧
      op.op ≠ .subDocOpCounter) :
    subDocMutateEncodeOps ops = .error .invalidArgs := by
  induction ops with
  | nil => simp at h
  | cons op rest ih =>
    obtain ⟨o, ho, hP⟩ := h
    rcases List.mem_cons.mp ho with rfl | hmem
    · simp only [subDocMutateEncodeOps, if_pos hP]
    · have hrec := ih ⟨o, hmem, hP⟩
      by_cases hA : op.op ≠ .subDocOpDictAdd ∧ op.op ≠ .subDocOpDictSet ∧
          op.op ≠ .subDocOpDelete ∧ op.op ≠ .subDocOpReplace ∧
          op.op ≠ .subDocOpArrayPushLast ∧ op.op ≠ .subDocOpArrayPushFirst ∧
          op.op ≠ .subDocOpArrayInsert ∧ op.op ≠ .subDocOpArrayAddUnique ∧
          op.op ≠ .subDocOpCounter
      · simp only [subDocMutateEncodeOps, if_pos hA]
      · simp only [subDocMutateEncodeOps, if_neg hA, hrec]

/-- A mutation op list of only permitted mutation op types passes
validation and is encoded. -/
theorem subDocMutateEncodeOps_ok_of_good (ops : List SubDocOp)
    (h : ∀ op ∈ ops, op.op = .subDocOpDictAdd ∨ op.op = .subDocOpDictSet ∨
      op.op = .subDocOpDelete ∨ op.op = .subDocOpReplace ∨
      op.op = .subDocOpArrayPushLast ∨ op.op = .subDocOpArrayPushFirst ∨
      op.op = .subDocOpArrayInsert ∨ op.op = .subDocOpArrayAddUnique ∨
      op.op = .subDocOpCounter) :
    ∃ valueBuf, subDocMutateEncodeOps ops = .ok valueBuf := by
  induction ops with
  | nil => exact ⟨[], rfl⟩
  | cons op rest ih =>
    have hop := h op (List.mem_cons_self op rest)
    obtain ⟨tail, htail⟩ := ih fun o ho => h o (List.mem_cons_of_mem op ho)
    have hA : ¬(op.op ≠ .subDocOpDictAdd ∧ op.op ≠ .subDocOpDictSet ∧
        op.op ≠ .subDocOpDelete ∧ op.op ≠ .subDocOpReplace ∧
        op.op ≠ .subDocOpArrayPushLast ∧ op.op ≠ .subDocOpArrayPushFirst ∧
        op.op ≠ .subDocOpArrayInsert ∧ op.op ≠ .subDocOpArrayAddUnique ∧
        op.op ≠ .subDocOpCounter) := by
      rintro ⟨c1, c2, c3, c4, c5, c6, c7, c8, c9⟩
      rcases hop with hE | hE | hE | hE | hE | hE | hE | hE | hE <;> simp_all
    refine ⟨[op.op.code % 256, op.flags % 256] ++ beUint16 op.path.length
      ++ beUint32 (op.value.getD []).length ++ op.path ++ op.value.getD []
      ++ tail, ?_⟩
    simp only [subDocMutateEncodeOps, if_neg hA, htail]

/-- C10: `SubDocLookup` returns `(nil, ErrInvalidArgs)` without building
a request whenever any op is neither a get nor an exists or has a
non-nil value (and builds a request when every op is valid);
`SubDocMutate` likewise returns `(nil, ErrInvalidArgs)` whenever any op
is outside the nine permitted mutation op types (and builds a request
when every op is permitted). -/
theorem C10_multi_op_validation (key : List Nat) (ops : List SubDocOp)
    (cas expiry : Nat) :
    ((∃ op ∈ ops, (op.op ≠ .subDocOpGet ∧ op.op ≠ .subDocOpExists) ∨
        op.value ≠ none) →
      subDocLookupRequest key ops = .error .invalidArgs) ∧
    ((∀ op ∈ ops, (op.op = .subDocOpGet ∨ op.op = .subDocOpExists) ∧
        op.value = none) →
      ∃ pkt, subDocLookupRequest key ops = .ok pkt) ∧
    ((∃ op ∈ ops, op.op ≠ .subDocOpDictAdd ∧ op.op ≠ .subDocOpDictSet ∧
        op.op ≠ .subDocOpDelete ∧ op.op ≠ .subDocOpReplace ∧
        op.op ≠ .subDocOpArrayPushLast ∧ op.op ≠ .subDocOpArrayPushFirst ∧
        op.op ≠ .subDocOpArrayInsert ∧ op.op ≠ .subDocOpArrayAddUnique ∧
        op.op ≠ .subDocOpCounter) →
      subDocMutateRequest key ops cas expiry = .error .invalidArgs) ∧
    ((∀ op ∈ ops, op.op = .subDocOpDictAdd ∨ op.op = .subDocOpDictSet ∨
        op.op = .subDocOpDelete ∨ op.op = .subDocOpReplace ∨
        op.op = .subDocOpArrayPushLast ∨ op.op = .subDocOpArrayPushFirst ∨
        op.op = .subDocOpArrayInsert ∨ op.op = .subDocOpArrayAddUnique ∨
        op.op = .subDocOpCounter) →
      ∃ pkt, subDocMutateRequest key ops cas expiry = .ok pkt) := by
  refine ⟨?_, ?_, ?_, ?_⟩
  · intro h
    rw [subDocLookupRequest, subDocLookupEncodeOps_error_of_bad ops h]
  · intro h
    obtain ⟨valueBuf, hv⟩ := subDocLookupEncodeOps_ok_of_good ops h
    exact ⟨_, by rw [subDocLookupRequest, hv]⟩
  · intro h
    rw [subDocMutateRequest, subDocMutateEncodeOps_error_of_bad ops h]
  · intro h
    obtain ⟨valueBuf, hv⟩ := subDocMutateEncodeOps_ok_of_good ops h
    exact ⟨_, by rw [subDocMutateRequest, hv]⟩

/-- C10 witness: a counter op in a lookup and a get op in a mutation
each yield `ErrInvalidArgs`; a get-only lookup builds a request. -/
theorem C10_multi_op_validation_witness :
    subDocLookupRequest [107]
      [{ op := .subDocOpCounter, flags := 0, path := [112], value := none }]
      = .error .invalidArgs ∧
    subDocMutateRequest [107]
      [{ op := .subDocOpGet, flags := 0, path := [112], value := some [49] }] 0 0
      = .error .invalidArgs ∧
    (∃ pkt, subDocLookupRequest [107]
      [{ op := .subDocOpGet, flags := 0, path := [112], value := none }] = .ok pkt) :=
  ⟨(C10_multi_op_validation [107]
      [{ op := .subDocOpCounter, flags := 0, path := [112], value := none }] 0 0).1
      (by decide),
   (C10_multi_op_validation [107]
      [{ op := .subDocOpGet, flags := 0, path := [112], value := some [49] }] 0 0).2.2.1
      (by decide),
   (C10_multi_op_validation [107]
      [{ op := .subDocOpGet, flags := 0, path := [112], value := none }] 0 0).2.1
      (by decide)⟩

/-- A successful lookup-result decode yields exactly one result per
requested operation. -/
theorem decodeLookupResults_length (numOps : Nat) (bytes : List Nat)
    (results : List SubDocResult)
    (h : decodeLookupResults numOps bytes = some results) :
    results.length = numOps := by
  induction numOps generalizing bytes results with
  | zero =>
    simp only [decodeLookupResults, Option.some.injEq] at h
    simp [← h]
  | succ n ih =>
    rw [decodeLookupResults] at h
    by_cases h6 : bytes.length < 6
    · rw [if_pos h6] at h
      exact absurd h (by simp)
    · rw [if_neg h6] at h
      by_cases hv : (bytes.drop 6).length < readUint32 (bytes.drop 2)
      · rw [if_pos hv] at h
        exact absurd h (by simp)
      · rw [if_neg hv] at h
        cases hrec : decodeLookupResults n ((bytes.drop 6).drop (readUint32 (bytes.drop 2))) with
        | none =>
          rw [hrec] at h
          exact absurd h (by simp)
        | some rs =>
          rw [hrec] at h
          simp only [Option.some.injEq] at h
          rw [← h]
          simp [ih _ _ hrec]

/-- C1 counterexample: a `SubDocLookup` response carrying
`ErrSubDocBadMulti` whose body is malformed (empty, with one op
requested) makes the callback receive `ErrProtocol` and no per-op
results, refuting the unconditional claim for lookups. -/
theorem C1_lookup_malformed_counterexample :
    (subDocLookupHandler 1
      { magic := 0x81, opcode := 0xd0, datatype := 0, vbucket := 0, cas := 0,
        extras := [], key := [], value := [] } (some .subDocBadMulti)
      = .failure .protocol) ∧
    ¬∃ results cas e, subDocLookupHandler 1
      { magic := 0x81, opcode := 0xd0, datatype := 0, vbucket := 0, cas := 0,
        extras := [], key := [], value := [] } (some .subDocBadMulti)
      = .results results cas e := by
  have hc : subDocLookupHandler 1
      { magic := 0x81, opcode := 0xd0, datatype := 0, vbucket := 0, cas := 0,
        extras := [], key := [], value := [] } (some .subDocBadMulti)
      = .failure .protocol := by decide
  refine ⟨hc, ?_⟩
  rintro ⟨results, cas, e, h⟩
  rw [hc] at h
  exact LookupCallback.noConfusion h

/-- C1 (amended): a `SubDocLookup` response carrying `ErrSubDocBadMulti`
whose body decodes correctly still hands the callback a decoded result
(status and value) for every operation, together with the original
error (a malformed body instead yields `ErrProtocol`); a `SubDocMutate`
response carrying `ErrSubDocBadMulti` hands the callback no results list
but an error wrapping only the failing operation's index (byte 0) and
decoded status (bytes 1-2), with `ErrProtocol` when the body is not
exactly 3 bytes. -/
theorem C1_subdoc_badmulti_asymmetry (numOps : Nat) (resp mresp : MemdPacket)
    (reqVbucket : Nat) (results : List SubDocResult)
    (hdec : decodeLookupResults numOps resp.value = some results) :
    (subDocLookupHandler numOps resp (some .subDocBadMulti)
       = .results results resp.cas (some .subDocBadMulti) ∧
     results.length = numOps) ∧
    (mresp.value.length = 3 →
      subDocMutateHandler numOps mresp reqVbucket (some .subDocBadMulti)
        = some (.failure (.subDocMutateFail (readUint16 (mresp.value.drop 1))
            (mresp.value.headD 0)))) ∧
    (mresp.value.length ≠ 3 →
      subDocMutateHandler numOps mresp reqVbucket (some .subDocBadMulti)
        = some (.failure .protocol)) := by
  refine ⟨⟨?_, decodeLookupResults_length _ _ _ hdec⟩, ?_, ?_⟩
  · simp [subDocLookupHandler, hdec]
  · intro h3
    simp [subDocMutateHandler, h3]
  · intro h3
    simp [subDocMutateHandler, h3]

/-- C1 witness: a well-formed one-op lookup body (status 0, one value
byte) decodes to one result, and a 3-byte mutation body `[1, 0, 100]`
yields the wrapped failing index 1 and status 100. -/
theorem C1_subdoc_badmulti_asymmetry_witness :
    (subDocLookupHandler 1
      { magic := 0x81, opcode := 0xd0, datatype := 0, vbucket := 0, cas := 9,
        extras := [], key := [], value := [0, 0, 0, 0, 0, 1, 97] }
      (some .subDocBadMulti)
      = .results [{ err := none, value := [97] }] 9 (some .subDocBadMulti)) ∧
    (subDocMutateHandler 2
      { magic := 0x81, opcode := 0xd1, datatype := 0, vbucket := 0, cas := 0,
        extras := [], key := [], value := [1, 0, 100] } 0 (some .subDocBadMulti)
      = some (.failure (.subDocMutateFail 100 1))) :=
  ⟨(C1_subdoc_badmulti_asymmetry 1
      { magic := 0x81, opcode := 0xd0, datatype := 0, vbucket := 0, cas := 9,
        extras := [], key := [], value := [0, 0, 0, 0, 0, 1, 97] }
      { magic := 0x81, opcode := 0xd1, datatype := 0, vbucket := 0, cas := 0,
        extras := [], key := [], value := [1, 0, 100] } 0
      [{ err := none, value := [97] }] (by decide)).1.1,
   (C1_subdoc_badmulti_asymmetry 2
      { magic := 0x81, opcode := 0xd0, datatype := 0, vbucket := 0, cas := 9,
        extras := [], key := [],
        value := [0, 0, 0, 0, 0, 1, 97, 0, 0, 0, 0, 0, 1, 98] }
      { magic := 0x81, opcode := 0xd1, datatype := 0, vbucket := 0, cas := 0,
        extras := [], key := [], value := [1, 0, 100] } 0
      [{ err := none, value := [97] }, { err := none, value := [98] }]
      (by decide)).2.1 rfl⟩

end Gocbcore
